import Mathlib

/-!
Shallow embedding of the `bmon` repository (Rust) for specification checking.

The compiled program is `src/main.rs`: it declares no `mod` items, so
`src/gpu.rs`, `src/process.rs` and `src/disk.rs` are unreferenced prototype
iterations.  The embedding below follows `src/main.rs`; the short-name
derivation `GPUStats::display_name`, which exists only in `src/gpu.rs`, is
embedded separately from that file.

Conventions:
* Rust `u32`/`u64` values become `Nat` (the program never exercises overflow
  on the metrics it formats); `i32` becomes `Int`.
* `f32` arithmetic used only for display formatting is modelled by exact
  natural/rational arithmetic with round-half-to-even decimal formatting;
  this coincides with the Rust output whenever the intermediate `f32`
  values are exactly representable, which holds at every concrete input
  evaluated in this development.
* Fallible operations (`unwrap`, `expect`, subprocess spawning) are modelled
  with `Option`/`Except`.
-/

namespace Bmon

/-- Rust `str::split_whitespace` (split on whitespace, dropping empty
substrings), implemented by structural recursion on the character list. -/
def splitWsAux : List Char → List Char → List String
  | [], acc => if acc.isEmpty then [] else [String.mk acc.reverse]
  | c :: cs, acc =>
    if c.isWhitespace then
      (if acc.isEmpty then [] else [String.mk acc.reverse]) ++ splitWsAux cs []
    else splitWsAux cs (c :: acc)

def splitWhitespace (s : String) : List String :=
  splitWsAux s.data []

/-- Rust `[String]::join(sep)`. -/
def joinSep (sep : String) : List String → String
  | [] => ""
  | [a] => a
  | a :: rest => a ++ sep ++ joinSep sep rest

/-- Concatenation of a list of strings (sequential `push_str` calls). -/
def concatAll : List String → String
  | [] => ""
  | a :: rest => a ++ concatAll rest

/-- Round `n / d` to the nearest integer, ties to even: the rounding Rust
`format!` applies when printing an exactly-representable binary value with a
fixed number of decimals. -/
def roundHalfEvenDiv (n d : Nat) : Nat :=
  let q := n / d
  let r := n % d
  if 2 * r < d then q
  else if 2 * r > d then q + 1
  else if q % 2 = 0 then q else q + 1

/-- Left-pad to two digits (the fractional part of a two-decimal format). -/
def pad2 (n : Nat) : String :=
  if n < 10 then "0" ++ toString n else toString n

/-- The byte count converted to GiB (three `f32` divisions by 1024) and
formatted with two decimal places. -/
def fmtGiB2 (b : Nat) : String :=
  let h := roundHalfEvenDiv (b * 100) (2 ^ 30)
  toString (h / 100) ++ "." ++ pad2 (h % 100)

/-- Milliwatts converted to watts (`f32` division by 1000) and formatted with
zero decimal places. -/
def fmtW (mw : Nat) : String :=
  toString (roundHalfEvenDiv mw 1000)

/-- Source `main.rs` lines 189-191: the CUDA driver version int (e.g. 12000)
formatted as a one-decimal version string (e.g. "12.0"). -/
def displayCudaVersion (v : Nat) : String :=
  let t := roundHalfEvenDiv (v * 10) 1000
  toString (t / 10) ++ "." ++ toString (t % 10)

/-- Model of `nvml_wrapper::bitmasks::device::ThrottleReasons`: a set of named flags,
one boolean per flag, in declaration order. -/
structure ThrottleReasons where
  gpuIdle : Bool := false
  applicationsClocksSetting : Bool := false
  swPowerCap : Bool := false
  hwSlowdown : Bool := false
  syncBoost : Bool := false
  swThermalSlowdown : Bool := false
  hwThermalSlowdown : Bool := false
  hwPowerBrakeSlowdown : Bool := false
  displayClockSetting : Bool := false
  deriving DecidableEq

namespace ThrottleReasons

/-- The names of the set flags, in declaration order (the order the bitflags
`Debug` instance prints them). -/
def setFlags (t : ThrottleReasons) : List String :=
  (if t.gpuIdle then ["GPU_IDLE"] else []) ++
  (if t.applicationsClocksSetting then ["APPLICATIONS_CLOCKS_SETTING"] else []) ++
  (if t.swPowerCap then ["SW_POWER_CAP"] else []) ++
  (if t.hwSlowdown then ["HW_SLOWDOWN"] else []) ++
  (if t.syncBoost then ["SYNC_BOOST"] else []) ++
  (if t.swThermalSlowdown then ["SW_THERMAL_SLOWDOWN"] else []) ++
  (if t.hwThermalSlowdown then ["HW_THERMAL_SLOWDOWN"] else []) ++
  (if t.hwPowerBrakeSlowdown then ["HW_POWER_BRAKE_SLOWDOWN"] else []) ++
  (if t.displayClockSetting then ["DISPLAY_CLOCK_SETTING"] else [])

/-- bitflags `is_empty`: no bit set, i.e. no set flag. -/
def isEmpty (t : ThrottleReasons) : Bool :=
  (setFlags t).isEmpty

/-- The Debug rendering of a bitflags value: the set flag names
joined by " | ". -/
def debugFmt (t : ThrottleReasons) : String :=
  joinSep " | " (setFlags t)

end ThrottleReasons

/-- The per-device readings `GPUStats::from_nvml_device` extracts from an
NVML `Device` handle.  `fan_speeds` models `num_fans()` (its length) together
with `fan_speed(i)` for each `i`; `compute_pids` models the pids of
`running_compute_processes()` in the order NVML reports them. -/
structure Device where
  index : Nat
  name : String
  temperature : Nat
  power_usage : Nat
  power_limit : Nat
  util_gpu : Nat
  util_mem : Nat
  memory_used : Nat
  memory_total : Nat
  cc_major : Int
  cc_minor : Int
  num_cores : Nat
  throttling : ThrottleReasons
  fan_speeds : List Nat
  display_connected : Bool
  display_active : Bool
  compute_pids : List Nat

/-- Source `main.rs` `struct GPUStats`: the display-ready per-device record. -/
structure GPUStats where
  idx : Nat
  name : String
  temp : String
  power : String
  utilizations : String
  memory : String
  capability : String
  cores : Nat
  fan : String
  display : String
  throttling : ThrottleReasons
  compute_process_pids : List Nat
  processes : String
  deriving DecidableEq

/-- Source `main.rs` lines 38-122, `GPUStats::from_nvml_device`. -/
def GPUStats.from_nvml_device (device : Device) : GPUStats :=
  let temp := toString device.temperature ++ "°C"
  let power := fmtW device.power_usage ++ "W/" ++ fmtW device.power_limit ++ "W"
  let utilizations :=
    "GPU " ++ toString device.util_gpu ++ "% VRAM " ++ toString device.util_mem ++ "%"
  let memory := fmtGiB2 device.memory_used ++ "GB/" ++ fmtGiB2 device.memory_total ++ "GB"
  let capability := toString device.cc_major ++ "." ++ toString device.cc_minor
  let n_fans := device.fan_speeds.length
  let fan :=
    if n_fans = 0 then "N/A"
    else toString (device.fan_speeds.sum / n_fans) ++ "%"
  let display :=
    if device.display_active then "Active"
    else if device.display_connected then "Connected"
    else "None"
  let processes := joinSep ", " (device.compute_pids.map toString)
  { idx := device.index
    name := device.name
    temp := temp
    power := power
    utilizations := utilizations
    memory := memory
    capability := capability
    cores := device.num_cores
    fan := fan
    display := display
    throttling := device.throttling
    compute_process_pids := device.compute_pids
    processes := processes }

/-- Source `main.rs` `struct ProcessStats`: one row of the process table. -/
structure ProcessStats where
  pid : Nat
  user : String
  utilizations : String
  elapsed : String
  command : String
  deriving DecidableEq

/-- Source `main.rs` lines 136-171, `ProcessStats::from_pid`.  `psOut` is the stdout
of `ps -p <pid> -o pid=,user=,%cpu=,%mem=,etime=,command=`; `none` models the
`ps` command failing to execute.  Every `unwrap` on a missing token is
modelled by `none` (the program panics there). -/
def ProcessStats.from_pid (pid : Nat) (psOut : Option String) : Option ProcessStats :=
  match psOut with
  | none => none
  | some out =>
    let toks := splitWhitespace out
    match toks.get? 1, toks.get? 2, toks.get? 3, toks.get? 4 with
    | some user, some cpu, some mem, some elapsed =>
      -- command is everything from the 5th word onwards, each word
      -- followed by a pushed space
      some { pid := pid
             user := user
             utilizations := "CPU " ++ cpu ++ "% MEM " ++ mem ++ "%"
             elapsed := elapsed
             command := concatAll ((toks.drop 5).map (fun w => w ++ " ")) }
    | _, _, _, _ => none

/-- Source `main.rs` lines 215-219: `nproc` stdout with the trailing newline
stripped; `strip_suffix('\n').unwrap()` panics when the suffix is absent. -/
def stripNewlineSuffix (s : String) : Option String :=
  if s.data.getLast? = some '\n' then some (String.mk s.data.dropLast) else none

/-- Source `main.rs` `struct Machine`. -/
structure Machine where
  cuda_version : String
  driver_version : String
  gpus : List GPUStats
  processes : List ProcessStats
  num_cpus : String
  ram_capacity : String
  deriving DecidableEq

/-- The external world `Machine::new` reads: the NVML session data and the
stdout of each subprocess (`none` = the subprocess failed to execute). -/
structure Env where
  cudaVersion : Nat
  driverVersion : String
  devices : List Device
  psOutput : Nat → Option String
  nprocOutput : Option String
  freeOutput : Option String

/-- Source `main.rs` lines 184-236, `Machine::new`.  The collection order of the
source is preserved: devices first, then one `ps` inspection per collected
pid (in collected order), then `nproc`, then `free`.  Each `unwrap`/`expect`
that would panic is modelled as an `Except.error`, aborting the build. -/
def Machine.new (env : Env) : Except String Machine :=
  let gpus := env.devices.map GPUStats.from_nvml_device
  let gpu_process_pids := gpus.flatMap (fun gpu => gpu.compute_process_pids)
  match gpu_process_pids.mapM
      (fun pid => ProcessStats.from_pid pid (env.psOutput pid)) with
  | none => .error "failed to execute ps command"
  | some processes =>
    match env.nprocOutput with
    | none => .error "failed to execute nproc command"
    | some nprocOut =>
      match stripNewlineSuffix nprocOut with
      | none => .error "nproc output missing trailing newline"
      | some num_cpus =>
        match env.freeOutput with
        | none => .error "failed to execute free command"
        | some freeOut =>
          match (splitWhitespace freeOut).get? 7 with
          | none => .error "free output has fewer than 8 tokens"
          | some ram_capacity =>
            .ok { cuda_version := displayCudaVersion env.cudaVersion
                  driver_version := env.driverVersion
                  gpus := gpus
                  processes := processes
                  num_cpus := num_cpus
                  ram_capacity := ram_capacity }

/-! ### Rendering

The table renderer is modelled at the cell level: a table is its list of
rows, a row its list of cell strings.  `tabled`'s derive places one column
per non-skipped field, in declaration order, with an UPPERCASE header row. -/

def gpuHeader : List String :=
  ["IDX", "NAME", "TEMP", "POWER", "UTILIZATIONS", "MEMORY",
   "CAPABILITY", "CORES", "FAN", "DISPLAY", "PROCESSES"]

def gpuRow (g : GPUStats) : List String :=
  [toString g.idx, g.name, g.temp, g.power, g.utilizations, g.memory,
   g.capability, toString g.cores, g.fan, g.display, g.processes]

/-- Source `main.rs` lines 243-253: the GPU table.  Non-verbose disables the
CAPABILITY, CORES, FAN, DISPLAY and PROCESSES columns (the last five) and
the header row. -/
def gpuTableCells (m : Machine) (verbose : Bool) : List (List String) :=
  if verbose then gpuHeader :: m.gpus.map gpuRow
  else m.gpus.map (fun g => (gpuRow g).take 6)

/-- Model of `tabled` `Width::truncate(w).suffix("...")`: cells wider than `w`
characters are cut to `w - 3` characters plus an ellipsis. -/
def truncateCell (w : Nat) (s : String) : String :=
  if s.length ≤ w then s
  else String.mk (s.data.take (w - 3) ++ ['.', '.', '.'])

def processHeader : List String :=
  ["PID", "USER", "UTILIZATIONS", "ELAPSED", "COMMAND"]

def processRow (p : ProcessStats) : List String :=
  [toString p.pid, p.user, p.utilizations, p.elapsed, p.command]

/-- Source `main.rs` lines 280-287: the process table.  Every row is truncated to
width 75 (verbose) or 20 (non-verbose); non-verbose also disables the header
row. -/
def processTableCells (ps : List ProcessStats) (verbose : Bool) : List (List String) :=
  let w := if verbose then 75 else 20
  let rows := (processHeader :: ps.map processRow).map (List.map (truncateCell w))
  if verbose then rows else rows.drop 1

/-- Source `main.rs` lines 259-266: one line per GPU whose throttle-reason set is
non-empty, in `gpus`-list order, printing the whole flag set Debug-style.
(The surrounding color escape writes are not part of the line text.) -/
def bottleneckLines (m : Machine) : List String :=
  m.gpus.filterMap (fun gpu =>
    if gpu.throttling.isEmpty then none
    else some ("GPU " ++ toString gpu.idx ++ " is throttling due to: " ++
               gpu.throttling.debugFmt))

/-- The output of `Machine::display_gpu_stats`: the version header line, the
GPU table, and (verbose only) the bottleneck lines. -/
structure GpuDisplay where
  header : String
  table : List (List String)
  bottleneck : List String
  deriving DecidableEq

/-- Source `main.rs` lines 238-267, `Machine::display_gpu_stats`. -/
def display_gpu_stats (m : Machine) (verbose : Bool) : GpuDisplay :=
  { header := "CUDA Version " ++ m.cuda_version ++ " | Driver Version " ++ m.driver_version
    table := gpuTableCells m verbose
    bottleneck := if verbose then bottleneckLines m else [] }

/-- The body of `Machine::display_cpu_stats` after its header line: either
the single informational line (when no compute process was collected) or the
process table. -/
inductive CpuBody where
  | noProcesses (line : String)
  | table (cells : List (List String))
  deriving DecidableEq

structure CpuDisplay where
  header : String
  body : CpuBody
  deriving DecidableEq

/-- Source `main.rs` lines 269-288, `Machine::display_cpu_stats`. -/
def display_cpu_stats (m : Machine) (verbose : Bool) : CpuDisplay :=
  { header := "Num CPUs " ++ m.num_cpus ++ " | RAM Capacity " ++ m.ram_capacity
    body :=
      if m.processes.isEmpty then
        CpuBody.noProcesses "No compute processes running on GPU"
      else
        CpuBody.table (processTableCells m.processes verbose) }

/-- Source `main.rs` `struct Args`: the parsed command-line flags. -/
structure Args where
  verbose : Bool
  gpu : Bool
  cpu : Bool
  network : Bool
  disk : Bool
  deriving DecidableEq

/-- Source `main.rs` lines 315-320, `fn main`: build the machine snapshot and
render both panels.  An `error` value models a panic (fatal, non-zero exit,
nothing rendered). -/
def mainRun (args : Args) (env : Env) : Except String (GpuDisplay × CpuDisplay) :=
  match Machine.new env with
  | .error e => .error e
  | .ok machine => .ok (display_gpu_stats machine args.verbose,
                        display_cpu_stats machine args.verbose)

/-- Whether an `Except` result is a success. -/
def isOkB : Except String α → Bool
  | .ok _ => true
  | .error _ => false

/-! ### `src/gpu.rs` short-name derivation -/

/-- Source `gpu.rs` lines 105-117, `GPUStats::display_name`: split the raw device
name on whitespace, keep only the last two words when there are more than
two, and join with single spaces. -/
def display_name (name : String) : String :=
  let words := splitWhitespace name
  let len := words.length
  let kept := if len > 2 then words.drop (len - 2) else words
  joinSep " " kept

/-- The last `n` elements of a list. -/
def lastN (n : Nat) (l : List String) : List String :=
  (l.reverse.take n).reverse

/-- A raw name with runs of whitespace collapsed to single spaces and outer
whitespace removed. -/
def normalizeWs (s : String) : String :=
  joinSep " " (splitWhitespace s)

/-! ### Derived views used by the statements -/

/-- The pid sequence `Machine::new` collects from the devices before process
inspection: each device's compute-process list, concatenated in device
order. -/
def collectedPids (env : Env) : List Nat :=
  (env.devices.map GPUStats.from_nvml_device).flatMap
    (fun g => g.compute_process_pids)

/-- The pids of the process snapshots a machine build produced. -/
def machinePids (env : Env) : Except String (List Nat) :=
  (Machine.new env).map (fun m => m.processes.map ProcessStats.pid)

/-- The command field of an optional process snapshot. -/
def commandField (o : Option ProcessStats) : Option String :=
  Option.map ProcessStats.command o

/-- The outcome of the core-count host query: `none` when the `nproc`
subprocess fails to execute or its output fails to parse (no trailing
newline). -/
def nprocResult (env : Env) : Option String :=
  env.nprocOutput.bind stripNewlineSuffix

/-- The outcome of the RAM-capacity host query: `none` when the `free`
subprocess fails to execute or its output fails to parse (fewer than
eight whitespace tokens). -/
def freeResult (env : Env) : Option String :=
  env.freeOutput.bind (fun out => (splitWhitespace out).get? 7)

/-! ### Concrete fixtures -/

def noThrottle : ThrottleReasons := {}

/-- A healthy device with the memory sizes of the specification's concrete
example (8 GiB used of 24 GiB). -/
def dev1 : Device :=
  { index := 0, name := "NVIDIA GeForce RTX 3090", temperature := 40,
    power_usage := 150000, power_limit := 350000, util_gpu := 10, util_mem := 5,
    memory_used := 8589934592, memory_total := 25769803776,
    cc_major := 8, cc_minor := 6, num_cores := 10496,
    throttling := noThrottle, fan_speeds := [30],
    display_connected := false, display_active := false, compute_pids := [5] }

/-- A device throttling for two simultaneous reasons. -/
def devT : Device :=
  { index := 0, name := "NVIDIA GeForce RTX 3090", temperature := 90,
    power_usage := 349000, power_limit := 350000, util_gpu := 99, util_mem := 80,
    memory_used := 8589934592, memory_total := 25769803776,
    cc_major := 8, cc_minor := 6, num_cores := 10496,
    throttling := { swPowerCap := true, hwSlowdown := true },
    fan_speeds := [80], display_connected := false, display_active := false,
    compute_pids := [] }

/-- A device with two fan sensors reading 33% and 34%. -/
def devF : Device :=
  { index := 0, name := "NVIDIA GeForce RTX 3090", temperature := 40,
    power_usage := 150000, power_limit := 350000, util_gpu := 10, util_mem := 5,
    memory_used := 8589934592, memory_total := 25769803776,
    cc_major := 8, cc_minor := 6, num_cores := 10496,
    throttling := noThrottle, fan_speeds := [33, 34],
    display_connected := false, display_active := false, compute_pids := [] }

/-- A device hosting compute processes 7 and 3, in that order. -/
def devDupA : Device :=
  { dev1 with index := 0, compute_pids := [7, 3] }

/-- A second device sharing compute process 3. -/
def devDupB : Device :=
  { dev1 with index := 1, compute_pids := [3] }

/-- An environment in which every external query succeeds. -/
def envOk : Env :=
  { cudaVersion := 12000, driverVersion := "535.54.03", devices := [dev1],
    psOutput := fun pid => some (toString pid ++ " root 1.0 2.0 10:00 python train.py\n"),
    nprocOutput := some "8\n",
    freeOutput := some "total used free shared Mem: 62Gi 10Gi 40Gi" }

/-- `envOk` with two devices whose compute-pid lists overlap and are not
sorted. -/
def envDup : Env :=
  { envOk with devices := [devDupA, devDupB] }

/-- `envOk` with the `nproc` subprocess failing to execute. -/
def envH : Env :=
  { envOk with nprocOutput := none }

/-- The machine `Machine.new envOk` builds. -/
def mOk : Machine :=
  { cuda_version := "12.0", driver_version := "535.54.03",
    gpus := [GPUStats.from_nvml_device dev1],
    processes := [{ pid := 5, user := "root",
                    utilizations := "CPU 1.0% MEM 2.0%", elapsed := "10:00",
                    command := "python train.py " }],
    num_cpus := "8", ram_capacity := "40Gi" }

/-- A machine whose only device throttles for two reasons. -/
def mC3 : Machine :=
  { cuda_version := "12.0", driver_version := "535.54.03",
    gpus := [GPUStats.from_nvml_device devT], processes := [],
    num_cpus := "8", ram_capacity := "40Gi" }

/-- A process snapshot whose command is longer than the non-verbose
truncation width of 20 characters. -/
def psLong : ProcessStats :=
  { pid := 1, user := "root", utilizations := "CPU 1.0% MEM 2.0%",
    elapsed := "10:00", command := "python train_model_with_long_name.py " }

/-- A machine with the single long-command process. -/
def mLong : Machine :=
  { cuda_version := "12.0", driver_version := "535.54.03",
    gpus := [], processes := [psLong], num_cpus := "8", ram_capacity := "40Gi" }

/-- A machine with no compute processes. -/
def mEmpty : Machine :=
  { cuda_version := "12.0", driver_version := "535.54.03",
    gpus := [GPUStats.from_nvml_device devT], processes := [],
    num_cpus := "8", ram_capacity := "40Gi" }

/-- Arguments requesting the unimplemented disk and network panels. -/
def argsDN : Args :=
  { verbose := false, gpu := true, cpu := false, network := true, disk := true }

/-! ### Helper lemmas -/

/-- Process inspection stores the inspected pid unchanged in the snapshot. -/
theorem from_pid_pid (pid : Nat) (o : Option String) (p : ProcessStats)
    (h : ProcessStats.from_pid pid o = some p) : p.pid = pid := by
  cases o with
  | none => simp [ProcessStats.from_pid] at h
  | some out =>
    simp only [ProcessStats.from_pid] at h
    split at h
    · rw [Option.some.injEq] at h
      subst h
      rfl
    · exact absurd h (by simp)

/-- A successful batch of inspections yields snapshots whose pids are
exactly the inspected pids, in order. -/
theorem mapM_from_pid_pids (f : Nat → Option String) :
    ∀ (pids : List Nat) (l : List ProcessStats),
      pids.mapM (fun pid => ProcessStats.from_pid pid (f pid)) = some l →
      l.map ProcessStats.pid = pids := by
  intro pids
  induction pids with
  | nil =>
    intro l h
    simp only [List.mapM_nil, pure] at h
    cases h
    rfl
  | cons a t ih =>
    intro l h
    rw [List.mapM_cons] at h
    cases hfa : ProcessStats.from_pid a (f a) with
    | none => rw [hfa] at h; simp at h
    | some b =>
      rw [hfa] at h
      cases hmt : t.mapM (fun pid => ProcessStats.from_pid pid (f pid)) with
      | none => rw [hmt] at h; simp at h
      | some bs =>
        rw [hmt] at h
        simp only [Option.bind_some, Option.some_bind, pure] at h
        cases h
        simp only [List.map_cons]
        rw [from_pid_pid a (f a) b hfa, ih bs hmt]

/-- Filtering with an option-valued conditional is filtering then mapping. -/
theorem filterMap_if {α β : Type} (p : α → Bool) (g : α → β) :
    ∀ l : List α,
      (l.filterMap fun x => if p x then none else some (g x)) =
      (l.filter fun x => !p x).map g := by
  intro l
  induction l with
  | nil => rfl
  | cons a t ih =>
    by_cases hp : p a
    · simp [List.filterMap_cons, List.filter_cons, hp, ih]
    · simp [List.filterMap_cons, List.filter_cons, hp, ih]

/-- Re-truncating a width-75 truncation at width 20 is truncating at
width 20 directly. -/
theorem truncate_comp (s : String) :
    truncateCell 20 (truncateCell 75 s) = truncateCell 20 s := by
  unfold truncateCell
  simp only [show (75 : Nat) - 3 = 72 from rfl, show (20 : Nat) - 3 = 17 from rfl]
  by_cases h75 : s.length ≤ 75
  · rw [if_pos h75]
  · have hsl : s.length = s.data.length := rfl
    have hd : 75 < s.data.length := by
      rw [← hsl]; exact Nat.lt_of_not_le h75
    rw [if_neg h75]
    have hlen : (String.mk (s.data.take 72 ++ ['.', '.', '.'])).length = 75 := by
      show (s.data.take 72 ++ ['.', '.', '.']).length = 75
      rw [List.length_append, List.length_take]
      simp only [List.length_cons, List.length_nil]
      omega
    rw [if_neg (by omega), if_neg (by omega)]
    congr 1
    show (s.data.take 72 ++ ['.', '.', '.']).take 17 ++ ['.', '.', '.'] =
      s.data.take 17 ++ ['.', '.', '.']
    rw [List.take_append_of_le_length (by rw [List.length_take]; omega),
      List.take_take]
    norm_num

/-- Appending a space to each word and concatenating equals joining with
single spaces plus one trailing space. -/
theorem concat_words_space :
    ∀ l : List String, l ≠ [] →
      concatAll (l.map (fun w => w ++ " ")) = joinSep " " l ++ " "
  | [], h => absurd rfl h
  | [a], _ => by
    simp only [List.map_cons, List.map_nil, concatAll, joinSep, String.append_empty]
  | a :: b :: t, _ => by
    have ih := concat_words_space (b :: t) (by simp)
    simp only [List.map_cons, concatAll] at ih ⊢
    rw [ih]
    show a ++ " " ++ (joinSep " " (b :: t) ++ " ") = joinSep " " (a :: b :: t) ++ " "
    rw [← String.append_assoc]
    rfl

/-- The last `n` elements are what remains after dropping all but `n`. -/
theorem lastN_eq_drop {l : List String} (n : Nat) :
    lastN n l = l.drop (l.length - n) := by
  unfold lastN
  rw [List.reverse_take, List.reverse_reverse, List.length_reverse]

/-! ### Claims -/

/-- C1: a device snapshot with `memory_used_bytes = 8589934592` and
`memory_total_bytes = 25769803776` renders the memory column as exactly
"8.00GB/24.00GB": both values converted to GiB with two decimal places. -/
theorem memory_column_concrete :
    (GPUStats.from_nvml_device dev1).memory = "8.00GB/24.00GB" := rfl

/-- C2 counterexample: with device pid lists `[7, 3]` and `[3]`, the built
report's process pids are `[7, 3, 3]` — pid 3 is inspected twice and yields
two snapshots, and the order is not ascending, falsifying the claimed
deduplication and sorting. -/
theorem machine_pids_duplicates_cex :
    machinePids envDup = Except.ok [7, 3, 3] := rfl

/-- C2 (amended): the report's process snapshots carry exactly the pids
collected by concatenating each device's compute-process list in device
order — one inspection per occurrence, duplicates retained, order
preserved (no deduplication and no sorting). -/
theorem machine_pids_follow_devices (env : Env) (m : Machine)
    (h : Machine.new env = .ok m) :
    m.processes.map ProcessStats.pid = collectedPids env := by
  simp only [Machine.new] at h
  split at h
  · cases h
  · split at h
    · cases h
    · split at h
      · cases h
      · split at h
        · cases h
        · split at h
          · cases h
          · rw [Except.ok.injEq] at h
            subst h
            exact mapM_from_pid_pids env.psOutput _ _ (by assumption)

/-- C2 witness: the amended statement evaluated on the healthy concrete
environment. -/
theorem machine_pids_follow_devices_witness :
    mOk.processes.map ProcessStats.pid = collectedPids envOk :=
  machine_pids_follow_devices envOk mOk rfl

/-- C3 counterexample: a device with two set throttle flags contributes one
bottleneck line naming both flags, not two lines. -/
theorem bottleneck_single_line_cex :
    (ThrottleReasons.setFlags devT.throttling).length = 2 ∧
    (display_gpu_stats mC3 true).bottleneck =
      ["GPU 0 is throttling due to: SW_POWER_CAP | HW_SLOWDOWN"] ∧
    (display_gpu_stats mC3 true).bottleneck.length = 1 :=
  ⟨rfl, rfl, rfl⟩

/-- C3 (amended): in the bottleneck section a device with empty
`throttle_reasons` contributes nothing, and a device with a non-empty set
contributes exactly one line listing all its set flags in declaration
order, devices in `gpus`-list order. -/
theorem bottleneck_per_device (m : Machine) :
    (display_gpu_stats m true).bottleneck =
      (m.gpus.filter fun g => !g.throttling.isEmpty).map
        (fun g => "GPU " ++ toString g.idx ++ " is throttling due to: " ++
                  g.throttling.debugFmt) := by
  simp only [display_gpu_stats, bottleneckLines, if_true]
  exact filterMap_if (fun g : GPUStats => g.throttling.isEmpty) _ m.gpus

/-- C4 counterexample: with both `--disk` and `--network` set the program
does not terminate fatally — the run succeeds and produces the report. -/
theorem disk_network_no_fatal_cex :
    isOkB (mainRun argsDN envOk) = true := rfl

/-- C4 (amended): the `--disk` and `--network` flags are parsed but never
read; the program behaves identically whatever their values, producing the
report normally. -/
theorem disk_network_flags_ignored (args : Args) (env : Env) :
    mainRun args env =
      mainRun ⟨args.verbose, args.gpu, args.cpu, false, false⟩ env := rfl

/-- C5 counterexample: a process whose command is 37 characters long renders
its command cell as "python train_mode..." non-verbose but in full verbose —
a column present in both renders whose cell values differ. -/
theorem verbosity_command_cell_cex :
    (display_cpu_stats mLong false).body =
      CpuBody.table
        [["1", "root", "CPU 1.0% MEM 2.0%", "10:00", "python train_mode..."]] ∧
    (display_cpu_stats mLong true).body =
      CpuBody.table
        [["PID", "USER", "UTILIZATIONS", "ELAPSED", "COMMAND"],
         ["1", "root", "CPU 1.0% MEM 2.0%", "10:00",
          "python train_model_with_long_name.py "]] :=
  ⟨rfl, rfl⟩

/-- C5 (amended): between the verbose and non-verbose renders of the same
report, the GPU table's shared columns (the first six, on the shared data
rows) are character-identical, while the process table's shared cells agree
only up to truncation width: the non-verbose cells equal the verbose cells
re-truncated to width 20, so cells longer than 20 characters differ. -/
theorem verbosity_shared_cells (m : Machine) :
    gpuTableCells m false = ((gpuTableCells m true).drop 1).map (fun r => r.take 6) ∧
    processTableCells m.processes false =
      ((processTableCells m.processes true).drop 1).map
        (List.map (truncateCell 20)) := by
  constructor
  · simp only [gpuTableCells, if_true, if_false, List.drop_succ_cons,
      List.drop_zero, List.map_map]
    rfl
  · simp only [processTableCells, if_true, if_false, List.map_cons,
      List.drop_succ_cons, List.drop_zero, List.map_map]
    apply List.map_congr_left
    intro p _
    show List.map (truncateCell 20) (processRow p) =
      List.map (truncateCell 20) (List.map (truncateCell 75) (processRow p))
    rw [List.map_map]
    apply List.map_congr_left
    intro s _
    exact (truncate_comp s).symm

/-- C6 counterexample: fan readings 33 and 34 render as "33%" — the
truncated mean — not the claimed round-to-nearest "34%". -/
theorem fan_truncation_cex :
    (GPUStats.from_nvml_device devF).fan = "33%" ∧
    (GPUStats.from_nvml_device devF).fan ≠ "34%" :=
  ⟨rfl, by decide⟩

/-- C6 (amended): for a device with at least one fan sensor, the fan field
is the floor (integer division) of the arithmetic mean of the per-fan
readings, formatted as a percentage. -/
theorem fan_floor_mean (d : Device) (h : d.fan_speeds ≠ []) :
    (GPUStats.from_nvml_device d).fan =
      toString (⌊(d.fan_speeds.sum : ℚ) / (d.fan_speeds.length : ℚ)⌋₊) ++ "%" := by
  have hn : ¬ d.fan_speeds.length = 0 := by
    simpa using h
  have hfl : ⌊(d.fan_speeds.sum : ℚ) / (d.fan_speeds.length : ℚ)⌋₊ =
      d.fan_speeds.sum / d.fan_speeds.length := by
    rw [Nat.floor_div_nat, Nat.floor_natCast]
  simp only [GPUStats.from_nvml_device]
  rw [if_neg hn, hfl]

/-- C6 witness: the amended statement evaluated on the two-fan device. -/
theorem fan_floor_mean_witness :
    (GPUStats.from_nvml_device devF).fan =
      toString (⌊(devF.fan_speeds.sum : ℚ) / (devF.fan_speeds.length : ℚ)⌋₊) ++ "%" :=
  fan_floor_mean devF (by decide)

/-- C7: when the process list is empty the renderer emits the single
informational line in place of the process table and never emits a table
(header-only or otherwise). -/
theorem empty_processes_info_line (m : Machine) (verbose : Bool)
    (h : m.processes = []) :
    (display_cpu_stats m verbose).body =
      CpuBody.noProcesses "No compute processes running on GPU" ∧
    ∀ cells, (display_cpu_stats m verbose).body ≠ CpuBody.table cells := by
  have hb : (display_cpu_stats m verbose).body =
      CpuBody.noProcesses "No compute processes running on GPU" := by
    simp [display_cpu_stats, h]
  refine ⟨hb, ?_⟩
  intro cells hc
  rw [hb] at hc
  cases hc

/-- C7 witness: the statement evaluated on a concrete machine with no
compute processes. -/
theorem empty_processes_info_line_witness :
    (display_cpu_stats mEmpty false).body =
      CpuBody.noProcesses "No compute processes running on GPU" :=
  (empty_processes_info_line mEmpty false rfl).1

/-- C8 counterexample: with one healthy device and the `nproc` query
failing, the whole build aborts fatally — no report with an absent host
panel is produced, contradicting the claimed graceful degradation. -/
theorem host_failure_cex :
    Machine.new envH = Except.error "failed to execute nproc command" ∧
    envH.devices.length = 1 :=
  ⟨rfl, rfl⟩

/-- C8 (amended): failure of either host-metric query the program actually
performs (`nproc` or `free`; I/O statistics are never queried) — whether
the subprocess fails to execute or its output fails to parse — aborts the
entire run fatally: no report is built, so the host snapshot is never
merely absent. -/
theorem host_failure_fatal (env : Env)
    (h : nprocResult env = none ∨ freeResult env = none) :
    isOkB (Machine.new env) = false := by
  simp only [Machine.new]
  split
  · rfl
  · split
    · rfl
    · next heqN =>
      split
      · rfl
      · next heqS =>
        split
        · rfl
        · next heqF =>
          split
          · rfl
          · next heqG =>
            rcases h with h | h
            · simp only [nprocResult, heqN, Option.some_bind] at h
              rw [heqS] at h
              exact Option.noConfusion h
            · simp only [freeResult, heqF, Option.some_bind] at h
              rw [heqG] at h
              exact Option.noConfusion h

/-- C8 witness: the amended statement evaluated on the environment whose
`nproc` query fails. -/
theorem host_failure_fatal_witness :
    isOkB (Machine.new envH) = false :=
  host_failure_fatal envH (Or.inl rfl)

/-- C9 counterexample: for the `ps` line "5 root 1.0 2.0 10:00 python
train.py" the reconstructed command is "python train.py " — it carries a
trailing space, so it is not the bare join of the tokens from the sixth
onward. -/
theorem command_trailing_space_cex :
    commandField (ProcessStats.from_pid 5
      (some "5 root 1.0 2.0 10:00 python train.py\n")) =
      some "python train.py " ∧
    ("python train.py " : String) ≠ "python train.py" :=
  ⟨rfl, by decide⟩

/-- C9 (amended): when the utility output has at least six whitespace
tokens, the reconstructed command equals the tokens from the sixth onward
joined with single spaces, followed by one trailing space. -/
theorem command_join_trailing (pid : Nat) (out : String)
    (h : 6 ≤ (splitWhitespace out).length) :
    commandField (ProcessStats.from_pid pid (some out)) =
      some (joinSep " " ((splitWhitespace out).drop 5) ++ " ") := by
  have h1 : (splitWhitespace out).get? 1 = some ((splitWhitespace out).get ⟨1, by omega⟩) :=
    List.get?_eq_get (by omega)
  have h2 : (splitWhitespace out).get? 2 = some ((splitWhitespace out).get ⟨2, by omega⟩) :=
    List.get?_eq_get (by omega)
  have h3 : (splitWhitespace out).get? 3 = some ((splitWhitespace out).get ⟨3, by omega⟩) :=
    List.get?_eq_get (by omega)
  have h4 : (splitWhitespace out).get? 4 = some ((splitWhitespace out).get ⟨4, by omega⟩) :=
    List.get?_eq_get (by omega)
  have hd : (splitWhitespace out).drop 5 ≠ [] := by
    intro hnil
    rw [List.drop_eq_nil_iff] at hnil
    omega
  simp only [ProcessStats.from_pid, h1, h2, h3, h4, commandField]
  rw [concat_words_space _ hd]
  rfl

/-- C9 witness: the amended statement evaluated on a concrete eight-token
`ps` line. -/
theorem command_join_trailing_witness :
    commandField (ProcessStats.from_pid 9
      (some "9 alice 2.0 3.0 01:23 bash -c sleep")) =
      some (joinSep " "
        ((splitWhitespace "9 alice 2.0 3.0 01:23 bash -c sleep").drop 5) ++ " ") :=
  command_join_trailing 9 "9 alice 2.0 3.0 01:23 bash -c sleep" (by decide)

/-- C10: the derived short name always keeps exactly the last two
whitespace-separated tokens of the raw device name joined by a single
space, and when the raw name has at most two tokens it equals the
whitespace-normalized raw name unchanged. -/
theorem short_name_last_two (name : String) :
    display_name name = joinSep " " (lastN 2 (splitWhitespace name)) ∧
    ((splitWhitespace name).length ≤ 2 → display_name name = normalizeWs name) := by
  constructor
  · simp only [display_name]
    rw [lastN_eq_drop]
    by_cases hl : (splitWhitespace name).length > 2
    · rw [if_pos hl]
    · rw [if_neg hl]
      have h0 : (splitWhitespace name).length - 2 = 0 := by omega
      rw [h0, List.drop_zero]
  · intro hle
    simp only [display_name, normalizeWs]
    rw [if_neg (by omega)]

/-- C10 witness: the statement evaluated on the specification's example
name and on a two-token name. -/
theorem short_name_last_two_witness :
    display_name "NVIDIA GeForce RTX 3090" =
      joinSep " " (lastN 2 (splitWhitespace "NVIDIA GeForce RTX 3090")) ∧
    display_name "RTX 3090" = normalizeWs "RTX 3090" :=
  ⟨(short_name_last_two "NVIDIA GeForce RTX 3090").1,
   (short_name_last_two "RTX 3090").2 (by decide)⟩

end Bmon
